import Mathlib

/-!
Verification of the ai_term agent shell: a shallow embedding of the safety
gate, command runner, session/sandbox logic, file tools, tool dispatcher,
command cleaner and agent loop, translated from the Python sources under
src/ai_shell, together with theorems settling the specification claims.

Machine-level collaborators (the OS process layer, the real filesystem and
the LLM backend) are modelled as explicit parameters: a filesystem value, a
spawn oracle and a suggestion oracle.  Pure Python string logic is
translated operation by operation; Python character-level string slicing is
modelled on the underlying character lists.
-/

namespace AiShell

/-! ## Python string primitives -/

/-- The character set of Python str.strip with no argument, restricted to
ASCII: space, tab, linefeed, carriage return, vertical tab, form feed. -/
def pySpace (c : Char) : Bool :=
  c = ' ' || c = '\t' || c = '\n' || c = '\r' || c = Char.ofNat 11 || c = Char.ofNat 12

/-- Python str.strip() on the character list. -/
def pyStripList (cs : List Char) : List Char :=
  ((cs.dropWhile pySpace).reverse.dropWhile pySpace).reverse

/-- Python str.strip(). -/
def pyStrip (s : String) : String :=
  ⟨pyStripList s.data⟩

/-- Python len(s): character count. -/
def strLen (s : String) : Nat :=
  s.data.length

/-- Python s[n:]: drop the first n characters. -/
def strDrop (s : String) (n : Nat) : String :=
  ⟨s.data.drop n⟩

/-- Python s[:-n] (for 0 < n ≤ len): drop the last n characters. -/
def strDropRight (s : String) (n : Nat) : String :=
  ⟨s.data.take (s.data.length - n)⟩

/-- Python s.startswith(p). -/
def strStarts (s p : String) : Bool :=
  p.data.isPrefixOf s.data

/-- Python s.endswith(p). -/
def strEnds (s p : String) : Bool :=
  p.data.isSuffixOf s.data

/-- Python s.count(c) for a single character. -/
def countChar (s : String) (c : Char) : Nat :=
  s.data.count c

/-- Python (c in s) for a single character. -/
def containsChar (s : String) (c : Char) : Bool :=
  s.data.contains c

/-- Python s.lower(); ASCII case mapping, which agrees with Python on every
character occurring in the commands and forbidden words compared here. -/
def lowerStr (s : String) : String :=
  ⟨s.data.map Char.toLower⟩

/-- The single-quote character, written via its code point. -/
def squoteChar : Char := Char.ofNat 39

/-- The double-quote character, written via its code point. -/
def dquoteChar : Char := Char.ofNat 34

/-- The backslash character, written via its code point. -/
def backslashChar : Char := Char.ofNat 92

/-- The backtick character, written via its code point. -/
def backtickChar : Char := Char.ofNat 96

/-- A one-character string made from a character. -/
def strOfChar (c : Char) : String :=
  ⟨[c]⟩

/-- Python str.split() with no argument: split on runs of whitespace,
dropping empty pieces. -/
def pySplitWSAux : List Char → String → List String → List String
  | [], cur, acc => if cur = "" then acc else acc ++ [cur]
  | c :: cs, cur, acc =>
    if pySpace c then pySplitWSAux cs "" (if cur = "" then acc else acc ++ [cur])
    else pySplitWSAux cs (cur.push c) acc

/-- Python s.split(). -/
def pySplitWS (s : String) : List String :=
  pySplitWSAux s.data "" []

/-! ## shlex.split

Model of CPython shlex.split(s) (posix mode, whitespace_split, comments
disabled, no punctuation characters): a token scanner over the character
list.  States mirror the shlex read_token state machine: outside a token,
inside a bare word, inside single or double quotes, and after an escape
character seen in word or double-quote context. -/

inductive ShState where
  | space
  | word
  | squote
  | dquote
  | escWord
  | escDquote
deriving DecidableEq

/-- The shlex whitespace set (space, tab, carriage return, linefeed). -/
def shWhite (c : Char) : Bool :=
  c = ' ' || c = '\t' || c = '\r' || c = '\n'

/-- One pass of the shlex scanner.  `tok` is the token being built, `q`
records whether the current token saw a quote (so empty quoted tokens are
emitted), `acc` the tokens emitted so far.  Errors are the ValueError
messages shlex raises on unbalanced quoting. -/
def shlexRun : List Char → ShState → String → Bool → List String → Except String (List String)
  | [], .space, _, _, acc => .ok acc
  | [], .word, tok, q, acc => .ok (if tok = "" && !q then acc else acc ++ [tok])
  | [], .squote, _, _, _ => .error "No closing quotation"
  | [], .dquote, _, _, _ => .error "No closing quotation"
  | [], .escWord, _, _, _ => .error "No escaped character"
  | [], .escDquote, _, _, _ => .error "No escaped character"
  | c :: cs, .space, tok, q, acc =>
    if shWhite c then shlexRun cs .space tok q acc
    else if c = backslashChar then shlexRun cs .escWord tok q acc
    else if c = squoteChar then shlexRun cs .squote tok q acc
    else if c = dquoteChar then shlexRun cs .dquote tok q acc
    else shlexRun cs .word (tok.push c) q acc
  | c :: cs, .word, tok, q, acc =>
    if shWhite c then
      shlexRun cs .space "" false (if tok = "" && !q then acc else acc ++ [tok])
    else if c = squoteChar then shlexRun cs .squote tok q acc
    else if c = dquoteChar then shlexRun cs .dquote tok q acc
    else if c = backslashChar then shlexRun cs .escWord tok q acc
    else shlexRun cs .word (tok.push c) q acc
  | c :: cs, .squote, tok, _, acc =>
    if c = squoteChar then shlexRun cs .word tok true acc
    else shlexRun cs .squote (tok.push c) true acc
  | c :: cs, .dquote, tok, _, acc =>
    if c = dquoteChar then shlexRun cs .word tok true acc
    else if c = backslashChar then shlexRun cs .escDquote tok true acc
    else shlexRun cs .dquote (tok.push c) true acc
  | c :: cs, .escWord, tok, q, acc => shlexRun cs .word (tok.push c) q acc
  | c :: cs, .escDquote, tok, q, acc =>
    if c = dquoteChar || c = backslashChar then shlexRun cs .dquote (tok.push c) q acc
    else shlexRun cs .dquote ((tok.push backslashChar).push c) q acc

/-- shlex.split(command): token list, or the ValueError message. -/
def shlexSplit (s : String) : Except String (List String) :=
  shlexRun s.data .space "" false []

/-! ## Safety gate (src/ai_shell/execution/safe_executor.py, lines 15-53) -/

/-- BASE_FORBIDDEN_WORDS (safe_executor.py line 15).  Python stores these in
a set; the iteration order is immaterial because no token can match two
distinct forbidden words (none of them contains a dash). -/
def BASE_FORBIDDEN_WORDS : List String :=
  ["rm", "sudo", "&&", "||", ";", "|", "`", "$(", "<", ">"]

/-- _get_forbidden_words (safe_executor.py lines 18-24).  Python applies
`(safety_profile or "standard").lower()`: the empty string is falsy and
falls back to "standard". -/
def get_forbidden_words (safety_profile : String) : List String :=
  let profile := if safety_profile = "" then "standard" else lowerStr safety_profile
  if profile = "lenient" then ["rm", "sudo", "&&", "||", ";", "|", "`", "$(", "<", ">"]
  else if profile = "strict" then BASE_FORBIDDEN_WORDS ++ ["chgrp", "dd"]
  else BASE_FORBIDDEN_WORDS

/-- The per-token forbidden-word test (safe_executor.py line 44):
`lower == word or lower.startswith(word + "-")`. -/
def matchTok (t w : String) : Bool :=
  lowerStr t = w || strStarts (lowerStr t) (w ++ "-")

/-- The nested loops of safe_executor.py lines 41-45: the first token (in
command order) matching a forbidden word yields that word. -/
def findForbidden (forbidden : List String) : List String → Option String
  | [] => none
  | t :: ts =>
    match forbidden.find? (fun w => matchTok t w) with
    | some w => some w
    | none => findForbidden forbidden ts

/-- is_safe_command (safe_executor.py lines 27-53). -/
def is_safe_command (command : String) (safety_profile : String) : Bool × String :=
  if pyStrip command = "" then (false, "Empty command.")
  else
    match shlexSplit command with
    | .error e => (false, "Unable to parse command: " ++ e)
    | .ok [] => (false, "Unable to parse command.")
    | .ok (t :: rest) =>
      match findForbidden (get_forbidden_words safety_profile) (t :: rest) with
      | some w => (false, "Command contains forbidden word: " ++ w)
      | none =>
        if t = "cd" then
          if rest.length > 1 then (false, "cd supports at most one argument.")
          else (true, "")
        else (true, "")

/-! ## POSIX paths (model of the os.path operations used by the sources)

An absolute path is its normalized component list (so "/" is [] and
"/tmp/sb" is ["tmp", "sb"]).  Strings coming from the program are parsed by
splitting on the path separator; os.path.abspath's lexical normalization
(dropping ".", "" and resolving "..") is `normComps`.  The POSIX
double-leading-slash corner case of normpath is not distinguished from the
single-slash root; it never changes a containment verdict against a
non-root sandbox. -/

/-- Split a character list on the path separator, Python str.split("/"). -/
def splitSlashAux : List Char → String → List String → List String
  | [], cur, acc => acc ++ [cur]
  | c :: cs, cur, acc =>
    if c = '/' then splitSlashAux cs "" (acc ++ [cur])
    else splitSlashAux cs (cur.push c) acc

/-- A raw path string as os.path sees it: absolute flag plus components
(which may still contain "", "." and ".."). -/
structure PyPath where
  absolute : Bool
  comps : List String
deriving DecidableEq

/-- Parse a path string. -/
def parsePath (s : String) : PyPath :=
  ⟨strStarts s "/", splitSlashAux s.data "" []⟩

/-- os.path.normpath on an absolute component list: drop "" and ".",
resolve ".." lexically (".." at the root stays at the root). -/
def normComps (cs : List String) : List String :=
  cs.foldl
    (fun acc c =>
      if c = "" || c = "." then acc
      else if c = ".." then acc.dropLast
      else acc ++ [c])
    []

/-- os.path.abspath(os.path.join(cwd, path)) for an absolute cwd: an
absolute path ignores cwd, a relative one is appended, then normalized.
This also covers the isabs branching in Session.change_directory. -/
def abspathJoin (cwd : List String) (path : String) : List String :=
  let p := parsePath path
  normComps (if p.absolute then p.comps else cwd ++ p.comps)

/-- os.path.commonpath of two absolute paths: the longest common component
prefix.  Total on this representation (the ValueError branches of the
Python function concern mixed absolute/relative arguments, which cannot
arise from the abspath results it is applied to). -/
def commonPath : List String → List String → List String
  | x :: xs, y :: ys => if x = y then x :: commonPath xs ys else []
  | _, _ => []

/-! ## Filesystem model

The OS filesystem as the sources observe it: a set of existing directories,
an association of regular files to contents, and the failure classes the
file tools catch (permission errors on read, undecodable bytes). -/

structure FS where
  dirs : List (List String)
  files : List (List String × String)
  unreadable : List (List String)
  nonUtf8 : List (List String)
deriving DecidableEq

/-- Content of a regular file, if the path names one. -/
def lookupFile : List (List String × String) → List String → Option String
  | [], _ => none
  | (q, c) :: rest, p => if q = p then some c else lookupFile rest p

/-- Remove a file binding. -/
def eraseFile : List (List String × String) → List String → List (List String × String)
  | [], _ => []
  | (q, c) :: rest, p => if q = p then eraseFile rest p else (q, c) :: eraseFile rest p

/-- os.path.isfile. -/
def isFile (fs : FS) (p : List String) : Bool :=
  (lookupFile fs.files p).isSome

/-- os.path.isdir. -/
def isDir (fs : FS) (p : List String) : Bool :=
  fs.dirs.contains p

/-- Create or overwrite a regular file. -/
def setFile (fs : FS) (p : List String) (content : String) : FS :=
  { fs with files := (p, content) :: eraseFile fs.files p }

/-- Whether open(path, "w") succeeds: the path is not the root, its parent
directory exists, and the target is not itself a directory.  (These are the
OSError cases relevant to the claims; a write denied for other OS reasons
behaves like the parent-missing case, reaching the same except branch.) -/
def openForWriteOk (fs : FS) (p : List String) : Prop :=
  p ≠ [] ∧ p.dropLast ∈ fs.dirs ∧ p ∉ fs.dirs

instance (fs : FS) (p : List String) : Decidable (openForWriteOk fs p) := by
  unfold openForWriteOk
  infer_instance

/-! ## Session (src/ai_shell/core/session.py) -/

structure Session where
  sandbox_root : List String
  cwd : List String
deriving DecidableEq

/-- Session.__init__ (session.py lines 6-8): the given root string is
resolved with os.path.abspath against the process working directory, and
cwd starts at the sandbox root. -/
def Session.create (process_cwd : List String) (sandbox_root : String) : Session :=
  let root := abspathJoin process_cwd sandbox_root
  ⟨root, root⟩

/-- Session.change_directory (session.py lines 19-35).  Returns the
(ok, message) pair together with the session after the call (Python mutates
self.cwd in place).  The Python ValueError branch of commonpath
("Invalid path.") is unreachable for two absolute arguments and has no
counterpart here. -/
def Session.change_directory (fs : FS) (s : Session) (path : String) : (Bool × String) × Session :=
  if path = "" then ((true, ""), s)
  else
    let new_path := abspathJoin s.cwd path
    let common := commonPath s.sandbox_root new_path
    if common ≠ s.sandbox_root then ((false, "Target directory is outside the sandbox."), s)
    else if ¬ (new_path ∈ fs.dirs) then ((false, "Directory does not exist."), s)
    else ((true, ""), { s with cwd := new_path })

/-! ## ToolResult (src/ai_shell/cli/components/tool_result.py) -/

structure ToolResult where
  success : Bool
  output : String
  error : String
deriving DecidableEq

/-! ## File tools (src/ai_shell/cli/components/file_tools.py) -/

/-- A one-character string holding a single quote, for the error texts. -/
def sq : String :=
  strOfChar squoteChar

/-- FileTools.read_file (file_tools.py lines 9-28).  Resolves against the
session cwd (with no sandbox containment check, mirroring the source),
then reports missing/non-regular targets, permission errors and
undecodable content exactly as the Python except branches do. -/
def FileTools.read_file (fs : FS) (s : Session) (path : String) : ToolResult :=
  let file_path := abspathJoin s.cwd path
  match lookupFile fs.files file_path with
  | none => ⟨false, "", "Error: " ++ sq ++ path ++ sq ++ " is not a file."⟩
  | some content =>
    if file_path ∈ fs.unreadable then
      ⟨false, "", "Error: Permission denied reading " ++ sq ++ path ++ sq ++ "."⟩
    else if file_path ∈ fs.nonUtf8 then
      ⟨false, "", "Error: " ++ sq ++ path ++ sq ++ " is not a text file or has invalid encoding."⟩
    else ⟨true, content, ""⟩

/-- The OSError text interpolated into "Error writing to file: " when the
open or write fails; the model keeps it abstract as a fixed placeholder. -/
def osWriteErrorText : String :=
  "[OS error]"

/-- FileTools.write_file (file_tools.py lines 31-46): resolve, check
containment of the resolved path in the sandbox root via commonpath, then
create/overwrite.  Returns the result and the filesystem after the call. -/
def FileTools.write_file (fs : FS) (s : Session) (path content : String) : ToolResult × FS :=
  let file_path := abspathJoin s.cwd path
  let common_path := commonPath s.sandbox_root file_path
  if common_path ≠ s.sandbox_root then
    (⟨false, "", "Error: Attempt to write outside of sandbox to " ++ sq ++ path ++ sq ++ "."⟩, fs)
  else if openForWriteOk fs file_path then
    (⟨true, "Successfully wrote to " ++ path, ""⟩, setFile fs file_path content)
  else
    (⟨false, "", "Error writing to file: " ++ osWriteErrorText⟩, fs)

/-! ## Command recognizer (src/ai_shell/cli/components/command_recognizer.py) -/

/-- The interactive-command allowlist (command_recognizer.py lines 16-18). -/
def interactive_commands : List String :=
  ["top", "htop", "vim", "vi", "nano", "pico", "less", "more", "man", "ssh"]

/-- CommandRecognizer.is_interactive (command_recognizer.py lines 41-46). -/
def CommandRecognizer.is_interactive (text : String) : Bool :=
  if pyStrip text = "" then false
  else
    match pySplitWS (pyStrip text) with
    | [] => false
    | w :: _ => interactive_commands.contains (lowerStr w)

/-! ## Non-interactive drain loop (safe_executor.py lines 98-154)

The child process and the pipe semantics are modelled explicitly so that
the polling loop can be evaluated under any interleaving of child progress
and parent polling.  The child performs a sequence of line writes to its
stdout/stderr pipes and then exits; `pend` below is the activity the child
has not yet performed, so process.poll() reports exit exactly when `pend`
is empty, while already-written lines stay buffered in the pipes.  A
blocking readline returns a buffered line, or lets the child run until the
wanted stream receives a line or the child exits with the pipe drained
(EOF, Python readline ""). -/

inductive ChildEvent where
  | out (line : String)
  | err (line : String)
deriving DecidableEq

structure ChildProc where
  events : List ChildEvent
  returncode : Int
deriving DecidableEq

/-- Child progress: perform the next n pending writes. -/
def deliverN : Nat → List ChildEvent → List String → List String →
    List ChildEvent × List String × List String
  | 0, pend, o, e => (pend, o, e)
  | _ + 1, [], o, e => ([], o, e)
  | n + 1, ChildEvent.out line :: pend, o, e => deliverN n pend (o ++ [line]) e
  | n + 1, ChildEvent.err line :: pend, o, e => deliverN n pend o (e ++ [line])

/-- Blocking process.stdout.readline(): a buffered line if present, else
the child runs until it writes to stdout or exits; none is EOF (""). -/
def readlineFromOut : List ChildEvent → List String → List String →
    Option String × List ChildEvent × List String × List String
  | pend, line :: rest, errPipe => (some line, pend, rest, errPipe)
  | [], [], errPipe => (none, [], [], errPipe)
  | ChildEvent.out line :: pend, [], errPipe => (some line, pend, [], errPipe)
  | ChildEvent.err line :: pend, [], errPipe => readlineFromOut pend [] (errPipe ++ [line])

/-- Blocking process.stderr.readline(), symmetric to `readlineFromOut`. -/
def readlineFromErr : List ChildEvent → List String → List String →
    Option String × List ChildEvent × List String × List String
  | pend, outPipe, line :: rest => (some line, pend, outPipe, rest)
  | [], outPipe, [] => (none, [], outPipe, [])
  | ChildEvent.err line :: pend, outPipe, [] => (some line, pend, outPipe, [])
  | ChildEvent.out line :: pend, outPipe, [] => readlineFromErr pend (outPipe ++ [line]) []

/-- The polling loop of safe_executor.py lines 138-147 (the console-less
branch; the Live branch has the same read/return structure, its extra
output_lines buffer and 50-line cap touch only the display).  The schedule
gives, for each iteration, how many pending child writes happen before the
parent's poll(); once the schedule is exhausted the child runs to
completion before the next poll.  The loop exits as soon as poll() reports
the child gone — lines still buffered in the pipes are never read. -/
def drainLoop : List Nat → List ChildEvent → List String → List String →
    List String → List String → List String × List String
  | [], _, _, _, outAcc, errAcc => (outAcc, errAcc)
  | n :: sch, pend, outPipe, errPipe, outAcc, errAcc =>
    match deliverN n pend outPipe errPipe with
    | ([], _, _) => (outAcc, errAcc)
    | (pend1, o1, e1) =>
      match readlineFromOut pend1 o1 e1 with
      | (ro, pend2, o2, e2) =>
        match readlineFromErr pend2 o2 e2 with
        | (re, pend3, o3, e3) =>
          drainLoop sch pend3 o3 e3
            (match ro with | some line => outAcc ++ [line] | none => outAcc)
            (match re with | some line => errAcc ++ [line] | none => errAcc)

/-- The (ok, exitCode, stdout, stderr) return shape of run_safe_command. -/
structure RunResult where
  ok : Bool
  exitCode : Int
  stdout : String
  stderr : String
deriving DecidableEq

/-- The non-interactive branch (safe_executor.py lines 100-154): run the
drain loop, then process.wait() and join the collected line lists into the
returned full strings. -/
def runNonInteractive (child : ChildProc) (schedule : List Nat) : RunResult :=
  let collected := drainLoop schedule child.events [] [] [] []
  ⟨child.returncode == 0, child.returncode, String.join collected.1, String.join collected.2⟩

/-- Every stderr line the child actually writes, joined: what a complete
drain would return. -/
def childStderrText (child : ChildProc) : String :=
  String.join (child.events.filterMap fun e =>
    match e with
    | ChildEvent.err line => some line
    | ChildEvent.out _ => none)

/-! ## Command runner (safe_executor.py lines 56-163) -/

/-- OS behavior when a non-interactive command is spawned: the child and an
interleaving schedule, a KeyboardInterrupt while waiting, or a spawn
exception with its message. -/
inductive SpawnBehavior where
  | runs (child : ChildProc) (schedule : List Nat)
  | interrupted
  | spawnError (msg : String)

/-- The OS collaborators of run_safe_command: os.path.expanduser("~"), the
interactive-branch wait result (some returncode, or none for a
KeyboardInterrupt during the wait), and the non-interactive spawn. -/
structure OsEnv where
  home : String
  interactiveRun : String → Option Int
  spawn : String → SpawnBehavior

/-- run_safe_command (safe_executor.py lines 56-163).  Returns the run
result, the session after the call (only the cd branch can change it), and
the list of commands handed to subprocess.Popen (so "no process spawned"
is the last component being empty). -/
def run_safe_command (env : OsEnv) (fs : FS) (s : Session) (command safety_profile : String) :
    RunResult × Session × List String :=
  let safe := is_safe_command command safety_profile
  if safe.1 = false then (⟨false, -1, "", safe.2⟩, s, [])
  else
    match shlexSplit command with
    | .error _ => (⟨false, -1, "", "Unable to parse command."⟩, s, [])
    | .ok [] => (⟨false, -1, "", "Unable to parse command."⟩, s, [])
    | .ok (t :: rest) =>
      if t = "cd" then
        let target := match rest with
          | [arg] => arg
          | _ => env.home
        let r := Session.change_directory fs s target
        if r.1.1 then (⟨true, 0, "", ""⟩, r.2, [])
        else (⟨false, -1, "", r.1.2⟩, r.2, [])
      else if CommandRecognizer.is_interactive command then
        match env.interactiveRun command with
        | some rc => (⟨true, rc, "", ""⟩, s, [command])
        | none => (⟨true, 0, "", ""⟩, s, [command])
      else
        match env.spawn command with
        | SpawnBehavior.runs child schedule => (runNonInteractive child schedule, s, [command])
        | SpawnBehavior.interrupted => (⟨false, -1, "", "Command interrupted by user."⟩, s, [command])
        | SpawnBehavior.spawnError msg =>
          (⟨false, -1, "", "Failed to execute command: " ++ msg⟩, s, [command])

/-! ## Tool dispatcher (src/ai_shell/cli/components/tool_executor.py) -/

/-- A tool call dict {tool, args}: tool_call.get("tool") may be absent,
args is a string-to-string mapping. -/
structure ToolCall where
  tool : Option String
  args : List (String × String)
deriving DecidableEq

/-- Python dict lookup. -/
def lookupArg : List (String × String) → String → Option String
  | [], _ => none
  | (k, v) :: rest, key => if k = key then some v else lookupArg rest key

/-- Python args.get(key, default). -/
def getArg (args : List (String × String)) (key default : String) : String :=
  match lookupArg args key with
  | some v => v
  | none => default

/-- Python str(tool_name) in the unknown-tool message: None prints as
"None". -/
def toolNameText : Option String → String
  | some s => s
  | none => "None"

/-- ToolExecutor.execute (tool_executor.py lines 10-36).  Returns the
ToolResult, the session, the filesystem after the call, and the spawned
commands.  On a shell command the failure text (the runner stderr) goes
into output, and the error field keeps the dataclass default "". -/
def ToolExecutor.execute (env : OsEnv) (fs : FS) (s : Session) (tc : ToolCall)
    (safety_profile : String) : ToolResult × Session × FS × List String :=
  if tc.tool = some "read_file" then
    (FileTools.read_file fs s (getArg tc.args "path" ""), s, fs, [])
  else if tc.tool = some "shell_command" then
    let command := getArg tc.args "command" ""
    if command = "" then (⟨false, "", "Error: No command provided"⟩, s, fs, [])
    else
      let r := run_safe_command env fs s command safety_profile
      (⟨r.1.ok, if r.1.ok then r.1.stdout else r.1.stderr, ""⟩, r.2.1, fs, r.2.2)
  else if tc.tool = some "write_file" then
    let path := getArg tc.args "path" ""
    let content := getArg tc.args "content" ""
    if path = "" then (⟨false, "", "Error: No path provided for write_file"⟩, s, fs, [])
    else
      let r := FileTools.write_file fs s path content
      (r.1, s, r.2, [])
  else
    (⟨false, "", "Error: Unknown tool " ++ sq ++ toolNameText tc.tool ++ sq⟩, s, fs, [])

/-! ## Command cleaner (src/ai_shell/ai/backend.py, lines 23-74)

CommandCleaner.clean is a fixed sequence of stages; each is modelled as a
named function and clean is their composition, mirroring the statement
order of the Python method. -/

namespace CommandCleaner

/-- The prompt glyphs (backend.py line 24), in their list order. -/
def PROMPTS : List String :=
  ["$", "#", ">", ">>>", "…"]

/-- _remove_code_fences (backend.py lines 56-64): strip a surrounding
triple-backtick fence, dropping a first-line language tag. -/
def removeCodeFences (cmd : String) : String :=
  let fence := strOfChar backtickChar ++ strOfChar backtickChar ++ strOfChar backtickChar
  if strStarts cmd fence && strEnds cmd fence then
    let inner := pyStrip (strDropRight (strDrop cmd 3) 3)
    if containsChar inner '\n' then
      let first : String := ⟨inner.data.takeWhile (fun c => c ≠ '\n')⟩
      let rest := strDrop inner (strLen first + 1)
      if pyStrip first ∈ ["bash", "sh", "shell", "zsh", "fish"] then pyStrip rest
      else pyStrip inner
    else pyStrip inner
  else cmd

/-- backend.py line 31: strip one layer of surrounding backticks when the
string holds exactly two of them. -/
def stripBacktickLayer (cmd : String) : String :=
  if strStarts cmd (strOfChar backtickChar) && strEnds cmd (strOfChar backtickChar)
      && countChar cmd backtickChar = 2 then
    pyStrip (strDropRight (strDrop cmd 1) 1)
  else cmd

/-- backend.py lines 34-37: strip one layer of matching surrounding double
or single quotes. -/
def stripQuoteLayer (cmd : String) : String :=
  if (strStarts cmd (strOfChar dquoteChar) && strEnds cmd (strOfChar dquoteChar))
      || (strStarts cmd (strOfChar squoteChar) && strEnds cmd (strOfChar squoteChar)) then
    pyStrip (strDropRight (strDrop cmd 1) 1)
  else cmd

/-- backend.py lines 39-42: strip the first prompt glyph that prefixes the
command followed by a space (the loop breaks after one match). -/
def stripPromptStage (cmd : String) : String :=
  match PROMPTS.find? (fun p => strStarts cmd (p ++ " ")) with
  | some p => pyStrip (strDrop cmd (strLen p))
  | none => cmd

/-- _normalize_echo_env (backend.py lines 67-74): a two-word
`echo $VAR`-shaped command becomes `printenv VAR`. -/
def normalizeEchoEnv (cmd : String) : String :=
  match shlexSplit cmd with
  | .error _ => cmd
  | .ok parts =>
    match parts with
    | [a, b] => if a = "echo" && strStarts b "$" then "printenv " ++ strDrop b 1 else cmd
    | _ => cmd

/-- backend.py lines 46-51: a single-line command containing a hash is
re-tokenized with shlex and re-joined with single spaces (shlex is called
with comments disabled, so hashes survive as ordinary characters). -/
def collapseHash (cmd : String) : String :=
  if !containsChar cmd '\n' && containsChar cmd '#' then
    match shlexSplit cmd with
    | .ok parts => String.intercalate " " parts
    | .error _ => cmd
  else cmd

/-- CommandCleaner.clean (backend.py lines 27-53): the stage pipeline. -/
def clean (cmd : String) : String :=
  collapseHash (normalizeEchoEnv (stripPromptStage (stripQuoteLayer
    (stripBacktickLayer (removeCodeFences (pyStrip cmd))))))

end CommandCleaner

/-! ## Agent loop (src/ai_shell/cli/components/command_processor.py)

The loop's control flow depends on the AI collaborator and on whether each
dispatched tool succeeds; both are abstracted into an oracle giving, per
iteration, the suggestion obtained (none models a backend failure caught
by _get_ai_suggestion) and the success of its tool call if executed.  The
model counts how many tool calls the loop executes. -/

/-- The per-query counters (command_processor.py lines 54-55). -/
structure ProcState where
  tool_calls_remaining : Nat
  error_recovery_depth : Nat
deriving DecidableEq

/-- MAX_TOOL_CALLS_PER_QUERY (command_processor.py line 38). -/
def MAX_TOOL_CALLS_PER_QUERY : Nat := 5

/-- MAX_ERROR_RECOVERY_DEPTH (command_processor.py line 39). -/
def MAX_ERROR_RECOVERY_DEPTH : Nat := 2

/-- _reset_counters (command_processor.py lines 57-59). -/
def reset_counters (_st : ProcState) : ProcState :=
  ⟨MAX_TOOL_CALLS_PER_QUERY, 0⟩

/-- A collaborator suggestion as the loop consumes it: the explanation, an
optional tool call, and (oracle part) whether dispatching that tool call
reports success. -/
structure LoopSuggestion where
  explanation : String
  tool_call : Option ToolCall
  tool_succeeds : Bool

/-- The while-loop of process_ai_query (command_processor.py lines
226-284), counting executed tool calls.  Iterations run while the budget
is positive; a backend failure or a tool-free suggestion ends the loop; a
tool call is executed after decrementing the budget (inside the loop the
_should_execute_tool budget check cannot fire, since the loop condition
already guarantees a positive budget); a failed tool increments the
recovery depth and stops once it reaches MAX_ERROR_RECOVERY_DEPTH. -/
def aiLoopExecuted (oracle : Nat → Option LoopSuggestion) : Nat → Nat → Nat → Nat
  | _, 0, _ => 0
  | i, r + 1, depth =>
    match oracle i with
    | none => 0
    | some sug =>
      match sug.tool_call with
      | none => 0
      | some _ =>
        if sug.tool_succeeds then 1 + aiLoopExecuted oracle (i + 1) r depth
        else if depth + 1 ≥ MAX_ERROR_RECOVERY_DEPTH then 1
        else 1 + aiLoopExecuted oracle (i + 1) r (depth + 1)

/-- process_ai_query (command_processor.py lines 216-295), observed through
the number of tool calls it executes: counters are reset first, then the
loop runs. -/
def process_ai_query_executed (st : ProcState) (oracle : Nat → Option LoopSuggestion) : Nat :=
  let st1 := reset_counters st
  aiLoopExecuted oracle 0 st1.tool_calls_remaining st1.error_recovery_depth

/-- _handle_error_with_ai (command_processor.py lines 151-176), observed
through the counters: refuse at the depth cap, otherwise bump the depth
and, when the suggestion carries a tool call and budget remains, spend one
budget unit on it. -/
def handle_error_with_ai (st : ProcState) (sug : Option LoopSuggestion) : ProcState :=
  if st.error_recovery_depth ≥ MAX_ERROR_RECOVERY_DEPTH then st
  else
    let st1 : ProcState := { st with error_recovery_depth := st.error_recovery_depth + 1 }
    match sug with
    | none => st1
    | some g =>
      match g.tool_call with
      | none => st1
      | some _ =>
        if st1.tool_calls_remaining ≤ 0 then st1
        else { st1 with tool_calls_remaining := st1.tool_calls_remaining - 1 }

/-- process_direct_command (command_processor.py lines 188-214), observed
through the counters: counters are reset, the command itself is executed
outside the budget, and a failure runs one error-recovery round. -/
def process_direct_command_state (st : ProcState) (command_succeeds : Bool)
    (recovery : Option LoopSuggestion) : ProcState :=
  let st1 := reset_counters st
  if command_succeeds then st1 else handle_error_with_ai st1 recovery

/-! ## Concrete fixtures used by witnesses and counterexamples -/

/-- A filesystem with nothing in it. -/
def fsEmpty : FS := ⟨[], [], [], []⟩

/-- A filesystem holding just the sandbox root directory /sb. -/
def fsSb : FS := ⟨[["sb"]], [], [], []⟩

/-- /sb plus a subdirectory /sb/d. -/
def fsSbD : FS := ⟨[["sb"], ["sb", "d"]], [], [], []⟩

/-- /sb plus a file /etc/secret outside the sandbox. -/
def fsSecret : FS := ⟨[["sb"]], [(["etc", "secret"], "top-secret")], [], []⟩

/-- A session sandboxed to /sb, sitting at its root. -/
def sSb : Session := ⟨["sb"], ["sb"]⟩

/-- An OS environment whose spawn is never reached by the scenarios that
use it. -/
def envStub : OsEnv := ⟨"/root", fun _ => some 0, fun _ => SpawnBehavior.interrupted⟩

/-- An OS environment whose home directory /home/u lies outside /sb. -/
def envHomeU : OsEnv := ⟨"/home/u", fun _ => some 0, fun _ => SpawnBehavior.interrupted⟩

/-- A child that writes one line to stderr and exits with code 2. -/
def childBoom : ChildProc := ⟨[ChildEvent.err "boom\n"], 2⟩

/-- An OS environment that runs childBoom under the interleaving in which
the child finishes before the parent's first poll. -/
def envBoom : OsEnv := ⟨"/root", fun _ => some 0, fun _ => SpawnBehavior.runs childBoom [1]⟩

/-- The rm -rf / shell tool call of the C3 scenario. -/
def tcRmRf : ToolCall := ⟨some "shell_command", [("command", "rm -rf /")]⟩

/-! ## Helper lemmas -/

lemma pyStrip_empty_all_space (s : String) (h : pyStrip s = "") :
    ∀ c ∈ s.data, pySpace c = true := by
  have h' : pyStripList s.data = [] := congrArg String.data h
  unfold pyStripList at h'
  rw [List.reverse_eq_nil_iff, List.dropWhile_eq_nil_iff] at h'
  intro c hc
  have hsplit := List.takeWhile_append_dropWhile pySpace s.data
  rw [← hsplit] at hc
  rcases List.mem_append.mp hc with hm | hm
  · exact List.mem_takeWhile_imp hm
  · exact h' c (List.mem_reverse.mpr hm)

lemma pySpace_not_special (c : Char) (h : pySpace c = true) :
    shWhite c = true ∨
      (shWhite c = false ∧ c ≠ backslashChar ∧ c ≠ squoteChar ∧ c ≠ dquoteChar) := by
  simp only [pySpace, Bool.or_eq_true, decide_eq_true_eq] at h
  rcases h with ((((rfl | rfl) | rfl) | rfl) | rfl) | rfl
  · left; decide
  · left; decide
  · left; decide
  · left; decide
  · right; refine ⟨by decide, by decide, by decide, by decide⟩
  · right; refine ⟨by decide, by decide, by decide, by decide⟩

lemma pySpace_toLower (c : Char) (h : pySpace c = true) : pySpace (Char.toLower c) = true := by
  simp only [pySpace, Bool.or_eq_true, decide_eq_true_eq] at h
  rcases h with ((((rfl | rfl) | rfl) | rfl) | rfl) | rfl <;> decide

/-- On an all-whitespace input the shlex scanner stays in the space/word
states and every token it can emit consists of whitespace characters. -/
lemma shlex_tokens_all_space (cs : List Char) :
    ∀ (st : ShState) (tok : String) (q : Bool) (acc ts : List String),
      (∀ c ∈ cs, pySpace c = true) →
      (st = ShState.space ∨ st = ShState.word) →
      (∀ c ∈ tok.data, pySpace c = true) →
      (∀ t ∈ acc, ∀ c ∈ t.data, pySpace c = true) →
      shlexRun cs st tok q acc = Except.ok ts →
      ∀ t ∈ ts, ∀ c ∈ t.data, pySpace c = true := by
  induction cs with
  | nil =>
    intro st tok q acc ts _ hst htok hacc hrun t htmem
    rcases hst with rfl | rfl
    · simp only [shlexRun, Except.ok.injEq] at hrun
      subst hrun
      exact hacc t htmem
    · simp only [shlexRun, Except.ok.injEq] at hrun
      subst hrun
      split at htmem
      · exact hacc t htmem
      · rcases List.mem_append.mp htmem with hm | hm
        · exact hacc t hm
        · simp only [List.mem_singleton] at hm
          subst hm
          exact htok
  | cons c cs ih =>
    intro st tok q acc ts hcs hst htok hacc hrun t htmem
    have hc : pySpace c = true := hcs c (List.mem_cons_self c cs)
    have hcs' : ∀ x ∈ cs, pySpace x = true := fun x hx => hcs x (List.mem_cons_of_mem c hx)
    have hpush : ∀ c' ∈ (tok.push c).data, pySpace c' = true := by
      intro c' hc'
      simp only [String.push] at hc'
      rcases List.mem_append.mp hc' with hm | hm
      · exact htok c' hm
      · simp only [List.mem_singleton] at hm
        subst hm
        exact hc
    rcases pySpace_not_special c hc with hw | ⟨hwf, hb, hsq, hdq⟩
    · rcases hst with rfl | rfl
      · simp only [shlexRun, hw, if_true] at hrun
        exact ih ShState.space tok q acc ts hcs' (Or.inl rfl) htok hacc hrun t htmem
      · simp only [shlexRun, hw, if_true] at hrun
        refine ih ShState.space "" false _ ts hcs' (Or.inl rfl) (by simp) ?_ hrun t htmem
        intro t' ht' c' hc'
        split at ht'
        · exact hacc t' ht' c' hc'
        · rcases List.mem_append.mp ht' with hm | hm
          · exact hacc t' hm c' hc'
          · simp only [List.mem_singleton] at hm
            subst hm
            exact htok c' hc'
    · rcases hst with rfl | rfl
      · simp only [shlexRun, hwf, Bool.false_eq_true, if_false, if_neg hb, if_neg hsq,
          if_neg hdq] at hrun
        exact ih ShState.word (tok.push c) q acc ts hcs' (Or.inr rfl) hpush hacc hrun t htmem
      · simp only [shlexRun, hwf, Bool.false_eq_true, if_false, if_neg hb, if_neg hsq,
          if_neg hdq] at hrun
        exact ih ShState.word (tok.push c) q acc ts hcs' (Or.inr rfl) hpush hacc hrun t htmem

lemma forbidden_words_cases (p : String) :
    get_forbidden_words p = BASE_FORBIDDEN_WORDS ∨
      get_forbidden_words p = BASE_FORBIDDEN_WORDS ++ ["chgrp", "dd"] := by
  unfold get_forbidden_words
  dsimp only
  by_cases h1 : (if p = "" then "standard" else lowerStr p) = "lenient"
  · rw [if_pos h1]
    left
    rfl
  · rw [if_neg h1]
    by_cases h2 : (if p = "" then "standard" else lowerStr p) = "strict"
    · rw [if_pos h2]
      right
      rfl
    · rw [if_neg h2]
      left
      rfl

lemma forbidden_has_nonspace (p w : String) (hw : w ∈ get_forbidden_words p) :
    ∃ c ∈ w.data, pySpace c = false := by
  rcases forbidden_words_cases p with h | h <;> rw [h] at hw <;>
    simp only [BASE_FORBIDDEN_WORDS, List.mem_append, List.mem_cons,
      List.not_mem_nil, or_false] at hw
  · rcases hw with rfl | rfl | rfl | rfl | rfl | rfl | rfl | rfl | rfl | rfl <;> decide
  · rcases hw with (rfl | rfl | rfl | rfl | rfl | rfl | rfl | rfl | rfl | rfl) | rfl | rfl <;>
      decide

lemma findForbidden_finds (fw : List String) :
    ∀ (ts : List String) (t w : String), t ∈ ts → w ∈ fw → matchTok t w = true →
      ∃ wr, findForbidden fw ts = some wr ∧ wr ∈ fw ∧
        ∃ tr, tr ∈ ts ∧ matchTok tr wr = true := by
  intro ts
  induction ts with
  | nil => intro t w ht _ _; cases ht
  | cons t0 ts ih =>
    intro t w ht hw hm
    cases hfind : fw.find? (fun w' => matchTok t0 w') with
    | some wr =>
      refine ⟨wr, ?_, List.mem_of_find?_eq_some hfind, t0, List.mem_cons_self t0 ts,
        List.find?_some hfind⟩
      simp [findForbidden, hfind]
    | none =>
      rcases List.mem_cons.mp ht with rfl | ht'
      · exact absurd hm (by simpa using List.find?_eq_none.mp hfind w hw)
      · obtain ⟨wr, hfr, hwr, tr, htr, hmr⟩ := ih t w ht' hw hm
        exact ⟨wr, by simp [findForbidden, hfind, hfr], hwr, tr,
          List.mem_cons_of_mem _ htr, hmr⟩

lemma is_safe_eq_forbidden (command profile t0 wr : String) (rest : List String)
    (hne : pyStrip command ≠ "")
    (hs : shlexSplit command = Except.ok (t0 :: rest))
    (hf : findForbidden (get_forbidden_words profile) (t0 :: rest) = some wr) :
    is_safe_command command profile = (false, "Command contains forbidden word: " ++ wr) := by
  unfold is_safe_command
  rw [if_neg hne, hs]
  simp [hf]

/-- A command that tokenizes while its strip is empty consists of
whitespace characters only, and then no token can match a forbidden word;
hence the "Empty command." branch never hides a forbidden-word match. -/
lemma forbidden_match_strip_ne (command profile : String) (tokens : List String) (t w : String)
    (hs : shlexSplit command = Except.ok tokens) (ht : t ∈ tokens)
    (hw : w ∈ get_forbidden_words profile) (hm : matchTok t w = true) :
    pyStrip command ≠ "" := by
  intro hempty
  have hall : ∀ c ∈ command.data, pySpace c = true := pyStrip_empty_all_space command hempty
  have htok : ∀ c ∈ t.data, pySpace c = true :=
    shlex_tokens_all_space command.data ShState.space "" false [] tokens hall (Or.inl rfl)
      (by simp) (by simp) hs t ht
  have hlow : ∀ c ∈ (lowerStr t).data, pySpace c = true := by
    intro c hc
    simp only [lowerStr, List.mem_map] at hc
    obtain ⟨c0, hc0, rfl⟩ := hc
    exact pySpace_toLower c0 (htok c0 hc0)
  obtain ⟨cnb, hcnb_mem, hcnb⟩ := forbidden_has_nonspace profile w hw
  unfold matchTok at hm
  rw [Bool.or_eq_true] at hm
  rcases hm with hcase | hcase
  · have hle : lowerStr t = w := of_decide_eq_true hcase
    have : pySpace cnb = true := hlow cnb (by rw [hle]; exact hcnb_mem)
    rw [this] at hcnb
    cases hcnb
  · have hpre : (w ++ "-").data <+: (lowerStr t).data :=
      List.isPrefixOf_iff_prefix.mp hcase
    have hdash : '-' ∈ (w ++ "-").data := by
      rw [String.data_append]
      exact List.mem_append.mpr (Or.inr (by decide))
    have : pySpace '-' = true := hlow '-' (hpre.subset hdash)
    cases this

/-- C1: for every safety profile and every command string that tokenizes
under shell-word-splitting and contains a token matching a forbidden word
of that profile (exactly, case-insensitively, or as the word followed by a
dash), is_safe_command returns false and its reason is the forbidden-word
message naming a matched word. -/
theorem is_safe_command_rejects_forbidden_tokens (command profile : String)
    (tokens : List String) (t w : String)
    (hs : shlexSplit command = Except.ok tokens) (ht : t ∈ tokens)
    (hw : w ∈ get_forbidden_words profile) (hm : matchTok t w = true) :
    (is_safe_command command profile).1 = false ∧
      ∃ wr, wr ∈ get_forbidden_words profile ∧
        (is_safe_command command profile).2 = "Command contains forbidden word: " ++ wr ∧
        ∃ tr, tr ∈ tokens ∧ matchTok tr wr = true := by
  have hne : pyStrip command ≠ "" :=
    forbidden_match_strip_ne command profile tokens t w hs ht hw hm
  cases tokens with
  | nil => cases ht
  | cons t0 rest =>
    obtain ⟨wr, hfr, hwr, tr, htr, hmr⟩ :=
      findForbidden_finds (get_forbidden_words profile) (t0 :: rest) t w ht hw hm
    have heq := is_safe_eq_forbidden command profile t0 wr rest hne hs hfr
    rw [heq]
    exact ⟨rfl, wr, hwr, rfl, tr, htr, hmr⟩

/-- Witness for C1 at command "rm -rf /" under the standard profile. -/
theorem is_safe_command_rejects_forbidden_tokens_witness :
    (is_safe_command "rm -rf /" "standard").1 = false ∧
      ∃ wr, wr ∈ get_forbidden_words "standard" ∧
        (is_safe_command "rm -rf /" "standard").2 = "Command contains forbidden word: " ++ wr ∧
        ∃ tr, tr ∈ ["rm", "-rf", "/"] ∧ matchTok tr wr = true :=
  is_safe_command_rejects_forbidden_tokens "rm -rf /" "standard" ["rm", "-rf", "/"] "rm" "rm"
    rfl (by decide) (by decide) (by decide)

/-- The while-loop never executes more tool calls than the budget it
starts with: every continuing iteration decrements the budget. -/
lemma aiLoopExecuted_le (oracle : Nat → Option LoopSuggestion) :
    ∀ (r i depth : Nat), aiLoopExecuted oracle i r depth ≤ r := by
  intro r
  induction r with
  | zero => intro i depth; simp [aiLoopExecuted]
  | succ r ih =>
    intro i depth
    unfold aiLoopExecuted
    cases h : oracle i with
    | none => simp
    | some sug =>
      dsimp only
      cases htc : sug.tool_call with
      | none => simp
      | some tc =>
        dsimp only
        split
        · have := ih (i + 1) depth
          omega
        · split
          · omega
          · have := ih (i + 1) (depth + 1)
            omega

/-- C2: one process_ai_query invocation executes at most
MAX_TOOL_CALLS_PER_QUERY (5) tool calls whatever the collaborator proposes,
and both process_ai_query and process_direct_command reset the per-query
counters (budget and error-recovery depth) to their initial values at the
start of every invocation, so neither depends on the counter state left by
earlier queries. -/
theorem agent_loop_budget_and_reset (st st2 : ProcState)
    (oracle : Nat → Option LoopSuggestion) (direct_ok : Bool)
    (recovery : Option LoopSuggestion) :
    process_ai_query_executed st oracle ≤ MAX_TOOL_CALLS_PER_QUERY ∧
      process_ai_query_executed st oracle = process_ai_query_executed st2 oracle ∧
      process_direct_command_state st direct_ok recovery =
        process_direct_command_state st2 direct_ok recovery ∧
      reset_counters st = ⟨MAX_TOOL_CALLS_PER_QUERY, 0⟩ := by
  refine ⟨?_, rfl, rfl, rfl⟩
  exact aiLoopExecuted_le oracle MAX_TOOL_CALLS_PER_QUERY 0 0

/-- A command the safety gate rejects makes run_safe_command return the
rejection immediately: exit code -1, the reason as stderr, the session
untouched and nothing spawned. -/
lemma run_safe_command_rejected (env : OsEnv) (fs : FS) (s : Session)
    (command profile reason : String)
    (h : is_safe_command command profile = (false, reason)) :
    run_safe_command env fs s command profile = (⟨false, -1, "", reason⟩, s, []) := by
  unfold run_safe_command
  rw [h]
  simp

/-- C3: dispatching the tool call shell_command "rm -rf /" under the
standard profile yields success=false with the failure text
"Command contains forbidden word: rm" carried as the result output (the
error field keeps the dataclass default ""), and the spawned-command list
is empty: no child process is ever started, for every OS environment,
filesystem and session. -/
theorem dispatch_rm_rf_rejected_no_spawn (env : OsEnv) (fs : FS) (s : Session) :
    ToolExecutor.execute env fs s tcRmRf "standard" =
      (⟨false, "Command contains forbidden word: rm", ""⟩, s, fs, []) := by
  have hsafe : is_safe_command "rm -rf /" "standard" =
      (false, "Command contains forbidden word: rm") := by decide
  have hrun := run_safe_command_rejected env fs s "rm -rf /" "standard"
    "Command contains forbidden word: rm" hsafe
  unfold ToolExecutor.execute
  rw [if_neg (by decide), if_pos (by decide)]
  have harg : getArg tcRmRf.args "command" "" = "rm -rf /" := by decide
  rw [harg, if_neg (by decide), hrun]
  simp

/-- C10: for every shell_command tool call with a non-empty command whose
run reports failure, the dispatcher's ToolResult carries the runner's
stderr in its output field and leaves the error field as the empty-string
dataclass default. -/
theorem shell_failure_text_in_output (env : OsEnv) (fs : FS) (s : Session)
    (tc : ToolCall) (profile : String)
    (htool : tc.tool = some "shell_command")
    (hcmd : getArg tc.args "command" "" ≠ "")
    (hfail : (run_safe_command env fs s (getArg tc.args "command" "") profile).1.ok = false) :
    ToolExecutor.execute env fs s tc profile =
      (⟨false, (run_safe_command env fs s (getArg tc.args "command" "") profile).1.stderr, ""⟩,
        (run_safe_command env fs s (getArg tc.args "command" "") profile).2.1, fs,
        (run_safe_command env fs s (getArg tc.args "command" "") profile).2.2) := by
  unfold ToolExecutor.execute
  rw [htool]
  rw [if_neg (by decide), if_pos rfl, if_neg hcmd]
  dsimp only
  rw [hfail]
  simp

/-- Witness for C10: a rejected rm -rf / shell call under a concrete
environment lands its failure text in output with an empty error field. -/
theorem shell_failure_text_in_output_witness :
    (getArg tcRmRf.args "command" "" ≠ "") ∧
      ToolExecutor.execute envStub fsSb sSb tcRmRf "standard" =
        (⟨false, "Command contains forbidden word: rm", ""⟩, sSb, fsSb, []) := by
  constructor
  · decide
  · have h := shell_failure_text_in_output envStub fsSb sSb tcRmRf "standard" rfl
      (by decide) (by decide)
    exact h.trans (by decide)

/-- C4 counterexample: with no existing directories, the empty-string
target resolves to a non-directory, yet change_directory accepts it with
(true, "") — the early return for a falsy path skips the containment and
existence checks, so the claim "rejects any target that is not an existing
directory" fails at the empty target. -/
theorem session_cd_empty_path_counterexample :
    ¬ (abspathJoin sSb.cwd "" ∈ fsEmpty.dirs) ∧
      Session.change_directory fsEmpty sSb "" = ((true, ""), sSb) :=
  ⟨by decide, by decide⟩

/-- C4 amended: cwd always stays a descendant of (or equal to) the sandbox
root — it starts equal to it, and change_directory preserves containment;
for every nonempty target, change_directory rejects (false, with a message,
session unchanged) a resolution whose longest common path with the root is
not the root or which is not an existing directory, and on success sets cwd
to the resolved in-sandbox directory; the empty target alone is accepted
unchanged without any check. -/
theorem session_cwd_sandbox_invariant (fs : FS) (s : Session) (path : String)
    (hinv : commonPath s.sandbox_root s.cwd = s.sandbox_root) :
    (∀ (process_cwd : List String) (root : String),
        (Session.create process_cwd root).cwd = (Session.create process_cwd root).sandbox_root) ∧
      (Session.change_directory fs s path).2.sandbox_root = s.sandbox_root ∧
      commonPath (Session.change_directory fs s path).2.sandbox_root
          (Session.change_directory fs s path).2.cwd =
        (Session.change_directory fs s path).2.sandbox_root ∧
      ((Session.change_directory fs s path).1.1 = false →
        (Session.change_directory fs s path).2 = s ∧
          (Session.change_directory fs s path).1.2 ≠ "") ∧
      (path ≠ "" →
        (commonPath s.sandbox_root (abspathJoin s.cwd path) ≠ s.sandbox_root ∨
            abspathJoin s.cwd path ∉ fs.dirs) →
        (Session.change_directory fs s path).1.1 = false) ∧
      (path ≠ "" → (Session.change_directory fs s path).1.1 = true →
        (Session.change_directory fs s path).2.cwd = abspathJoin s.cwd path ∧
          abspathJoin s.cwd path ∈ fs.dirs) ∧
      (path = "" → Session.change_directory fs s path = ((true, ""), s)) := by
  by_cases hp : path = ""
  · subst hp
    refine ⟨fun _ _ => rfl, ?_⟩
    simp only [Session.change_directory, if_pos rfl]
    refine ⟨rfl, hinv, ?_, ?_, ?_, fun _ => rfl⟩
    · intro h
      simp at h
    · intro h
      exact absurd rfl h
    · intro h
      exact absurd rfl h
  · unfold Session.change_directory
    rw [if_neg hp]
    dsimp only
    by_cases hc : commonPath s.sandbox_root (abspathJoin s.cwd path) ≠ s.sandbox_root
    · rw [if_pos hc]
      refine ⟨fun _ _ => rfl, rfl, hinv, fun _ => ⟨rfl, by dsimp only; decide⟩, fun _ _ => rfl, ?_,
        fun h => absurd h hp⟩
      intro _ hsucc
      simp at hsucc
    · rw [if_neg hc]
      push_neg at hc
      by_cases hdir : abspathJoin s.cwd path ∈ fs.dirs
      · rw [if_neg (not_not_intro hdir)]
        refine ⟨fun _ _ => rfl, rfl, hc, ?_, ?_, fun _ _ => ⟨rfl, hdir⟩, fun h => absurd h hp⟩
        · intro h
          simp at h
        · intro _ hrej
          rcases hrej with h | h
          · exact absurd hc h
          · exact absurd hdir h
      · rw [if_pos hdir]
        refine ⟨fun _ _ => rfl, rfl, hinv, fun _ => ⟨rfl, by dsimp only; decide⟩, fun _ _ => rfl, ?_,
          fun h => absurd h hp⟩
        intro _ hsucc
        simp at hsucc

/-- Witness for C4 at a successful in-sandbox directory change. -/
theorem session_cwd_sandbox_invariant_witness :
    (Session.change_directory fsSbD sSb "d").2.cwd = abspathJoin sSb.cwd "d" ∧
      abspathJoin sSb.cwd "d" ∈ fsSbD.dirs := by
  have h := session_cwd_sandbox_invariant fsSbD sSb "d" (by decide)
  exact h.2.2.2.2.2.1 (by decide) (by decide)

/-- C5 counterexample: the path d/f.txt resolves inside the sandbox, but
its parent directory does not exist, so the open fails and write_file
reports failure instead of the success the claim promises for every
in-sandbox path. -/
theorem write_file_missing_parent_counterexample :
    commonPath sSb.sandbox_root (abspathJoin sSb.cwd "d/f.txt") = sSb.sandbox_root ∧
      (FileTools.write_file fsSb sSb "d/f.txt" "x").1.success = false ∧
      (FileTools.write_file fsSb sSb "d/f.txt" "x").2 = fsSb :=
  ⟨by decide, by decide, by decide⟩

/-- C5 amended: a resolution outside the sandbox root always fails with the
attempt-to-write-outside-of-sandbox error and leaves the filesystem
untouched; an in-sandbox resolution whose enclosing directory exists and
which is not itself a directory (so the OS-level open succeeds) is created
or overwritten with exactly the given content and reports success; every
failure leaves the filesystem unchanged — no partial write happens. -/
theorem write_file_sandbox_containment (fs : FS) (s : Session) (path content : String) :
    (commonPath s.sandbox_root (abspathJoin s.cwd path) ≠ s.sandbox_root →
      FileTools.write_file fs s path content =
        (⟨false, "",
            "Error: Attempt to write outside of sandbox to " ++ sq ++ path ++ sq ++ "."⟩,
          fs)) ∧
      (commonPath s.sandbox_root (abspathJoin s.cwd path) = s.sandbox_root →
        openForWriteOk fs (abspathJoin s.cwd path) →
        (FileTools.write_file fs s path content).1 =
            ⟨true, "Successfully wrote to " ++ path, ""⟩ ∧
          lookupFile (FileTools.write_file fs s path content).2.files
              (abspathJoin s.cwd path) =
            some content) ∧
      ((FileTools.write_file fs s path content).1.success = false →
        (FileTools.write_file fs s path content).2 = fs) := by
  unfold FileTools.write_file
  dsimp only
  by_cases hc : commonPath s.sandbox_root (abspathJoin s.cwd path) ≠ s.sandbox_root
  · rw [if_pos hc]
    exact ⟨fun _ => rfl, fun h _ => absurd h hc, fun _ => rfl⟩
  · rw [if_neg hc]
    by_cases ho : openForWriteOk fs (abspathJoin s.cwd path)
    · rw [if_pos ho]
      refine ⟨fun hne => absurd hne hc, fun _ _ => ⟨rfl, ?_⟩, ?_⟩
      · simp [setFile, lookupFile]
      · intro h
        simp at h
    · rw [if_neg ho]
      exact ⟨fun hne => absurd hne hc, fun _ hop => absurd hop ho, fun _ => rfl⟩

/-- Witness for C5 at a concrete sandbox escape. -/
theorem write_file_sandbox_containment_witness :
    FileTools.write_file fsSb sSb "../x" "hi" =
      (⟨false, "",
          "Error: Attempt to write outside of sandbox to " ++ sq ++ "../x" ++ sq ++ "."⟩,
        fsSb) := by
  have h := write_file_sandbox_containment fsSb sSb "../x" "hi"
  exact h.1 (by decide)

/-- C6 counterexample: ../etc/secret resolves outside the sandbox root,
yet read_file returns its content with success — the source performs no
containment check on reads, refuting the claim that escapes fail. -/
theorem read_file_escape_succeeds_counterexample :
    commonPath sSb.sandbox_root (abspathJoin sSb.cwd "../etc/secret") ≠ sSb.sandbox_root ∧
      FileTools.read_file fsSecret sSb "../etc/secret" = ⟨true, "top-secret", ""⟩ :=
  ⟨by decide, by decide⟩

/-- C6 amended: read_file is not sandboxed.  Its result never depends on
the sandbox root, and any path resolving (against cwd) to an existing
readable text file — inside the sandbox or not — is returned with success;
only missing/non-regular targets, permission errors and undecodable
content fail.  Only write_file enforces containment. -/
theorem read_file_ignores_sandbox_root (fs : FS) (root1 root2 cwd : List String)
    (path : String) :
    FileTools.read_file fs ⟨root1, cwd⟩ path = FileTools.read_file fs ⟨root2, cwd⟩ path ∧
      ∀ content, lookupFile fs.files (abspathJoin cwd path) = some content →
        abspathJoin cwd path ∉ fs.unreadable →
        abspathJoin cwd path ∉ fs.nonUtf8 →
        FileTools.read_file fs ⟨root1, cwd⟩ path = ⟨true, content, ""⟩ := by
  constructor
  · rfl
  · intro content hcontent hr hn
    unfold FileTools.read_file
    dsimp only
    rw [hcontent]
    dsimp only
    rw [if_neg hr, if_neg hn]

/-- Witness for C6: the concrete escaping read succeeds with the outside
file's content. -/
theorem read_file_ignores_sandbox_root_witness :
    FileTools.read_file fsSecret ⟨["sb"], ["sb"]⟩ "../etc/secret" =
      ⟨true, "top-secret", ""⟩ := by
  have h := read_file_ignores_sandbox_root fsSecret ["sb"] ["other"] ["sb"] "../etc/secret"
  exact h.2 "top-secret" (by decide) (by decide) (by decide)

/-- The safety gate always passes the bare command "cd", whatever the
profile string. -/
lemma is_safe_cd (p : String) : is_safe_command "cd" p = (true, "") := by
  have hcases := forbidden_words_cases p
  unfold is_safe_command
  rw [if_neg (by decide : ¬ pyStrip "cd" = "")]
  have hcd : shlexSplit "cd" = Except.ok ["cd"] := rfl
  rw [hcd]
  dsimp only
  rcases hcases with h | h <;> rw [h] <;> decide

/-- C7 counterexample: with the sandbox rooted at /sb and the home
directory /home/u, running "cd" with no argument targets home — not the
sandbox root — and the change is rejected as outside the sandbox, so the
run does not return ok=true/exit 0 as the claim states. -/
theorem cd_no_arg_goes_home_counterexample :
    run_safe_command envHomeU fsSb sSb "cd" "standard" =
      (⟨false, -1, "", "Target directory is outside the sandbox."⟩, sSb, []) := by
  decide

/-- C7 amended: running "cd" with no argument resolves the target to the
user's home directory (os.path.expanduser of ~), not to the sandbox root,
delegates to Session.change_directory, spawns no process, and returns
ok=true with a synthesized exit code 0 exactly when the directory change
succeeds (on failure it returns the change message as stderr with exit
code -1). -/
theorem cd_no_arg_resolves_home (env : OsEnv) (fs : FS) (s : Session) (profile : String) :
    run_safe_command env fs s "cd" profile =
      (if (Session.change_directory fs s env.home).1.1 = true then (⟨true, 0, "", ""⟩ : RunResult)
          else ⟨false, -1, "", (Session.change_directory fs s env.home).1.2⟩,
        (Session.change_directory fs s env.home).2, ([] : List String)) := by
  have hsafe : is_safe_command "cd" profile = (true, "") := is_safe_cd profile
  unfold run_safe_command
  rw [hsafe]
  dsimp only
  rw [if_neg (by decide : ¬ ((true, "") : Bool × String).1 = false)]
  have hcd : shlexSplit "cd" = Except.ok ["cd"] := rfl
  rw [hcd]
  dsimp only
  rw [if_pos rfl]
  by_cases hok : (Session.change_directory fs s env.home).1.1 = true
  · rw [if_pos hok, if_pos hok]
  · rw [if_neg hok, if_neg hok]

/-- C8 counterexample: each clean pass strips at most one leading prompt
glyph, so "$ $ ls" cleans to "$ ls", which cleans again to "ls" — cleaning
is not idempotent. -/
theorem clean_not_idempotent_counterexample :
    CommandCleaner.clean "$ $ ls" = "$ ls" ∧
      CommandCleaner.clean (CommandCleaner.clean "$ $ ls") = "ls" ∧
      CommandCleaner.clean (CommandCleaner.clean "$ $ ls") ≠ CommandCleaner.clean "$ $ ls" :=
  ⟨by decide, by decide, by decide⟩

/-- C8 amended: clean strips one wrapping layer per application and is not
idempotent in general; clean(clean(x)) = clean(x) does hold whenever the
first pass's output is a fixed point of each stage — already stripped and
left unchanged by the fence, backtick, quote, prompt, echo-normalization
and comment-collapsing stages (a decidable, sufficient condition). -/
theorem clean_idempotent_on_stage_fixed_points (x : String)
    (h1 : pyStrip (CommandCleaner.clean x) = CommandCleaner.clean x)
    (h2 : CommandCleaner.removeCodeFences (CommandCleaner.clean x) = CommandCleaner.clean x)
    (h3 : CommandCleaner.stripBacktickLayer (CommandCleaner.clean x) = CommandCleaner.clean x)
    (h4 : CommandCleaner.stripQuoteLayer (CommandCleaner.clean x) = CommandCleaner.clean x)
    (h5 : CommandCleaner.stripPromptStage (CommandCleaner.clean x) = CommandCleaner.clean x)
    (h6 : CommandCleaner.normalizeEchoEnv (CommandCleaner.clean x) = CommandCleaner.clean x)
    (h7 : CommandCleaner.collapseHash (CommandCleaner.clean x) = CommandCleaner.clean x) :
    CommandCleaner.clean (CommandCleaner.clean x) = CommandCleaner.clean x := by
  show CommandCleaner.collapseHash (CommandCleaner.normalizeEchoEnv
    (CommandCleaner.stripPromptStage (CommandCleaner.stripQuoteLayer
      (CommandCleaner.stripBacktickLayer (CommandCleaner.removeCodeFences
        (pyStrip (CommandCleaner.clean x))))))) = CommandCleaner.clean x
  rw [h1, h2, h3, h4, h5, h6, h7]

/-- Witness for C8 at the stable cleaned command "ls -la". -/
theorem clean_idempotent_on_stage_fixed_points_witness :
    CommandCleaner.clean (CommandCleaner.clean "ls -la") = CommandCleaner.clean "ls -la" :=
  clean_idempotent_on_stage_fixed_points "ls -la" (by decide) (by decide) (by decide)
    (by decide) (by decide) (by decide) (by decide)

/-- C9 (code bug): under the legal interleaving in which the child writes
its stderr line and exits before the parent's first poll, the polling loop
body never runs, the buffered line is dropped, and the returned stderr is
"" although the child wrote "boom" and a complete drain (here: the
interleaving that lets the parent block in readline before the child
exits) returns it; ok=false and exitCode=2 are still reported.  The full
runner exhibits the same loss.  This contradicts the specified contract
that the returned stderr is the complete text regardless of
interleaving. -/
theorem drain_loop_drops_buffered_output :
    runNonInteractive childBoom [1] = ⟨false, 2, "", ""⟩ ∧
      childStderrText childBoom = "boom\n" ∧
      runNonInteractive childBoom [0] = ⟨false, 2, "", "boom\n"⟩ ∧
      run_safe_command envBoom fsSb sSb "boomcmd" "standard" =
        (⟨false, 2, "", ""⟩, sSb, ["boomcmd"]) :=
  ⟨by decide, by decide, by decide, by decide⟩

end AiShell
